import Mathlib

/-!
Shallow embedding of the match simulation engine of `Sim/engine.py`,
`Sim/entities.py` and `Sim/config.py`.

Python floats are modelled as exact rationals (`ℚ`); Python string
identifiers for zones, teams, hub statuses and robot actions are modelled
as closed inductive types (the engine only ever produces and compares the
corresponding string constants).  Python list indexing (which accepts
negative indices counting from the end, and raises `IndexError` when out
of range) is modelled by `pyResolve` / `pyGet`, and commands that index
the robot list return `Option Engine` (`none` = `IndexError`).
-/

namespace Sim

/-- `config.TOTAL_BALLS`. -/
def TOTAL_BALLS : ℚ := 504

/-- `config.MAX_INTAKE_RATE`. -/
def MAX_INTAKE_RATE : ℚ := 6

/-- `config.MATCH_DURATION`. -/
def MATCH_DURATION : ℚ := 160

/-- `config.AUTO_DURATION`. -/
def AUTO_DURATION : ℚ := 20

/-- `config.SHIFT_START_TIME`. -/
def SHIFT_START_TIME : ℚ := 30

/-- `config.SHIFT_DURATION`. -/
def SHIFT_DURATION : ℚ := 25

/-- The three zone keys `config.ZONE_RED`, `config.ZONE_BLUE`, `config.ZONE_NEUTRAL`. -/
inductive ZoneId where
  | Red
  | Blue
  | Neutral
deriving DecidableEq, Repr

/-- The two team strings `'Red'` and `'Blue'` used by `Robot.team`. -/
inductive Team where
  | Red
  | Blue
deriving DecidableEq, Repr

/-- `config.HUB_ACTIVE` / `config.HUB_INACTIVE`. -/
inductive HubStatus where
  | Active
  | Inactive
deriving DecidableEq, Repr

/-- The action strings of `entities.Robot.current_action`:
`"Idle"`, `"Moving to <zone>"`, `"Intaking"`, `"Shooting"`, `"Passing"`. -/
inductive Action where
  | Idle
  | MovingTo (target : ZoneId)
  | Intaking
  | Shooting
  | Passing
deriving DecidableEq, Repr

/-- `entities.Robot`: static configuration plus mutable state.
`intake_efficiency` is clamped to [0,1] by the constructor `mkRobot`. -/
structure Robot where
  team : Team
  id : Nat
  capacity : ℚ
  transit_time : ℚ
  balls_shot_per_sec : ℚ
  intake_efficiency : ℚ
  start_zone : ZoneId
  current_zone_name : ZoneId
  inventory : ℚ
  action_cooldown : ℚ
  current_action : Action
deriving DecidableEq, Repr

/-- `Robot.__init__`: clamps `intake_efficiency` to `[0, 1]`, puts the robot
in its start zone, idle with zero cooldown. -/
def mkRobot (team : Team) (id : Nat) (capacity transit_time balls_shot_per_sec
    intake_efficiency : ℚ) (start_zone : ZoneId) (initial_inventory : ℚ) : Robot :=
  { team := team
    id := id
    capacity := capacity
    transit_time := transit_time
    balls_shot_per_sec := balls_shot_per_sec
    intake_efficiency := max 0 (min 1 intake_efficiency)
    start_zone := start_zone
    current_zone_name := start_zone
    inventory := initial_inventory
    action_cooldown := 0
    current_action := Action.Idle }

/-- `Robot.is_busy`. -/
def Robot.is_busy (bot : Robot) : Prop := bot.action_cooldown > 0

instance (bot : Robot) : Decidable bot.is_busy := by
  unfold Robot.is_busy; infer_instance

/-- `Robot.update(dt)`: tick the cooldown; on the falling edge clamp it to 0
and reset the action to `Idle`. -/
def Robot.update (dt : ℚ) (bot : Robot) : Robot :=
  if bot.action_cooldown > 0 then
    let c := bot.action_cooldown - dt
    if c ≤ 0 then
      { bot with action_cooldown := 0, current_action := Action.Idle }
    else
      { bot with action_cooldown := c }
  else
    bot

/-- `Robot.set_action_transit(target_zone)`. -/
def Robot.set_action_transit (target : ZoneId) (bot : Robot) : Robot :=
  { bot with current_action := Action.MovingTo target,
             action_cooldown := bot.transit_time }

/-- The ball counts of the three `Zone` objects held in `SimulationEngine.zones`. -/
structure Zones where
  red : ℚ
  blue : ℚ
  neutral : ℚ
deriving DecidableEq, Repr

/-- Look up `zones[name].balls`. -/
def Zones.get (z : Zones) : ZoneId → ℚ
  | ZoneId.Red => z.red
  | ZoneId.Blue => z.blue
  | ZoneId.Neutral => z.neutral

/-- Assign `zones[name].balls = v`. -/
def Zones.set (z : Zones) : ZoneId → ℚ → Zones
  | ZoneId.Red, v => { z with red := v }
  | ZoneId.Blue, v => { z with blue := v }
  | ZoneId.Neutral, v => { z with neutral := v }

/-- One robot's record in `history_robot_states`. -/
structure RobotSnap where
  team : Team
  zone : ZoneId
  action : Action
  inventory : ℚ
  cooldown : ℚ
deriving DecidableEq, Repr

/-- One `advance` call's appended history entry (the per-step slice of the
`history_*` lists of `SimulationEngine`). -/
structure Snapshot where
  time : ℚ
  red_balls : ℚ
  blue_balls : ℚ
  neutral_balls : ℚ
  robot_states : List RobotSnap
  red_hub : HubStatus
  blue_hub : HubStatus
  red_score : ℚ
  blue_score : ℚ
deriving DecidableEq, Repr

/-- `SimulationEngine` state. -/
structure Engine where
  time : ℚ
  zones : Zones
  robots : List Robot
  red_hub_status : HubStatus
  blue_hub_status : HubStatus
  red_score : ℚ
  blue_score : ℚ
  history : List Snapshot
deriving DecidableEq, Repr

/-- `SimulationEngine.__init__`: Neutral holds all `TOTAL_BALLS`, both hubs
active, scores zero, no robots, empty history. -/
def mkEngine : Engine :=
  { time := 0
    zones := { red := 0, blue := 0, neutral := TOTAL_BALLS }
    robots := []
    red_hub_status := HubStatus.Active
    blue_hub_status := HubStatus.Active
    red_score := 0
    blue_score := 0
    history := [] }

/-- `SimulationEngine.add_robot`. -/
def addRobot (bot : Robot) (e : Engine) : Engine :=
  { e with robots := e.robots ++ [bot] }

/-- Python list index resolution: a non-negative index addresses from the
front, a negative index `i` addresses position `len + i`; out of range is
`IndexError` (`none`). -/
def pyResolve (len : Nat) (i : Int) : Option Nat :=
  if 0 ≤ i then
    (if i.toNat < len then some i.toNat else none)
  else
    (if (-i).toNat ≤ len then some (len - (-i).toNat) else none)

/-- Python `l[i]` on a list. -/
def pyGet {α : Type} (l : List α) (i : Int) : Option α :=
  (pyResolve l.length i).bind l.get?

/-- The part of the engine state the per-robot loop of `step` threads
through: zone ball counts and scores (hub statuses are read-only there). -/
structure Mid where
  zones : Zones
  red_score : ℚ
  blue_score : ℚ
deriving DecidableEq, Repr

/-- `SimulationEngine.get_zone_density` over a mid-loop state. -/
def getZoneDensity (m : Mid) (zone_name : ZoneId) : ℚ :=
  m.zones.get zone_name / TOTAL_BALLS

/-- `SimulationEngine.calculate_intake_rate`:
`intake_efficiency * density * MAX_INTAKE_RATE`. -/
def calculateIntakeRate (m : Mid) (bot : Robot) : ℚ :=
  bot.intake_efficiency * getZoneDensity m bot.current_zone_name * MAX_INTAKE_RATE

/-- `SimulationEngine._process_intake`: clamp the transferred amount by
rate*dt, the robot's free space and the zone's balls; move it zone → robot. -/
def processIntake (m : Mid) (bot : Robot) (dt : ℚ) : Mid × Robot :=
  let space := bot.capacity - bot.inventory
  if space ≤ 0 then (m, bot)
  else
    let rate := calculateIntakeRate m bot
    let amount := rate * dt
    let possible_from_zone := m.zones.get bot.current_zone_name
    let actual_amount := min (min amount space) possible_from_zone
    ({ m with zones := m.zones.set bot.current_zone_name
                (possible_from_zone - actual_amount) },
     { bot with inventory := bot.inventory + actual_amount })

/-- `SimulationEngine._on_action_complete`, dispatching on the action that
was captured before the cooldown tick; always ends with the action `Idle`. -/
def onActionComplete (red_hub blue_hub : HubStatus) (m : Mid) (bot : Robot)
    (action_name : Action) : Mid × Robot :=
  match action_name with
  | Action.MovingTo target =>
      (m, { bot with current_zone_name := target, current_action := Action.Idle })
  | Action.Shooting =>
      let count := bot.inventory
      let m :=
        if bot.team = Team.Red ∧ red_hub = HubStatus.Active then
          { m with red_score := m.red_score + count }
        else if bot.team = Team.Blue ∧ blue_hub = HubStatus.Active then
          { m with blue_score := m.blue_score + count }
        else m
      ({ m with zones := { m.zones with neutral := m.zones.neutral + count } },
       { bot with inventory := 0, current_action := Action.Idle })
  | Action.Passing =>
      let count := bot.inventory
      let m :=
        match bot.team with
        | Team.Red => { m with zones := { m.zones with red := m.zones.red + count } }
        | Team.Blue => { m with zones := { m.zones with blue := m.zones.blue + count } }
      (m, { bot with inventory := 0, current_action := Action.Idle })
  | _ => (m, { bot with current_action := Action.Idle })

/-- The body of the per-robot loop inside `SimulationEngine.step`: capture
the pre-tick cooldown and action, run continuous intake when `Intaking`
with positive cooldown, tick the cooldown, and on the falling edge
(`prev_cooldown > 0` and post-tick cooldown `≤ 0`) resolve completion. -/
def processBot (red_hub blue_hub : HubStatus) (dt : ℚ) (m : Mid) (bot : Robot) :
    Mid × Robot :=
  let prev_cooldown := bot.action_cooldown
  let action_being_performed := bot.current_action
  let p :=
    if bot.current_action = Action.Intaking ∧ bot.action_cooldown > 0 then
      processIntake m bot dt
    else (m, bot)
  let bot1 := Robot.update dt p.2
  if prev_cooldown > 0 ∧ bot1.action_cooldown ≤ 0 then
    onActionComplete red_hub blue_hub p.1 bot1 action_being_performed
  else
    (p.1, bot1)

/-- The `for bot in self.robots` loop of `step`, in list order. -/
def stepRobots (red_hub blue_hub : HubStatus) (dt : ℚ) :
    Mid → List Robot → Mid × List Robot
  | m, [] => (m, [])
  | m, bot :: rest =>
      let p := processBot red_hub blue_hub dt m bot
      let q := stepRobots red_hub blue_hub dt p.1 rest
      (q.1, p.2 :: q.2)

/-- `SimulationEngine._update_hub_status`, as a pure function of the new
time and the previous hub statuses (kept unchanged in the
`teleop_time < 0` gap). -/
def updateHubStatus (time : ℚ) (red_hub blue_hub : HubStatus) :
    HubStatus × HubStatus :=
  if MATCH_DURATION - time ≤ 30 then
    (HubStatus.Active, HubStatus.Active)
  else if time ≤ AUTO_DURATION then
    (HubStatus.Active, HubStatus.Active)
  else
    let teleop_time := time - SHIFT_START_TIME
    if teleop_time < 0 then
      (red_hub, blue_hub)
    else
      let shift_index := ⌊teleop_time / SHIFT_DURATION⌋
      if shift_index % 2 = 0 then
        (HubStatus.Active, HubStatus.Inactive)
      else
        (HubStatus.Inactive, HubStatus.Active)

/-- The snapshot appended by `step` after robots were updated, capturing
the post-update state at the new time. -/
def mkSnapshot (e : Engine) : Snapshot :=
  { time := e.time
    red_balls := e.zones.red
    blue_balls := e.zones.blue
    neutral_balls := e.zones.neutral
    robot_states := e.robots.map (fun bot =>
      { team := bot.team
        zone := bot.current_zone_name
        action := bot.current_action
        inventory := bot.inventory
        cooldown := bot.action_cooldown })
    red_hub := e.red_hub_status
    blue_hub := e.blue_hub_status
    red_score := e.red_score
    blue_score := e.blue_score }

/-- `SimulationEngine.step(dt)`: advance time, recompute hub status, run the
per-robot loop, then append one snapshot of the new state. -/
def step (dt : ℚ) (e : Engine) : Engine :=
  let time := e.time + dt
  let hubs := updateHubStatus time e.red_hub_status e.blue_hub_status
  let r := stepRobots hubs.1 hubs.2 dt
    { zones := e.zones, red_score := e.red_score, blue_score := e.blue_score }
    e.robots
  let e1 : Engine :=
    { time := time
      zones := r.1.zones
      robots := r.2
      red_hub_status := hubs.1
      blue_hub_status := hubs.2
      red_score := r.1.red_score
      blue_score := r.1.blue_score
      history := e.history }
  { e1 with history := e.history ++ [mkSnapshot e1] }

/-- `SimulationEngine.command_move`: no-op on a busy robot; a direct
Red⇄Blue transition is forbidden; otherwise start the transit. -/
def commandMove (robot_idx : Int) (target_zone : ZoneId) (e : Engine) :
    Option Engine :=
  (pyResolve e.robots.length robot_idx).bind fun j =>
    (e.robots.get? j).map fun bot =>
      if bot.is_busy then e
      else
        let current := bot.current_zone_name
        if (current = ZoneId.Red ∧ target_zone = ZoneId.Blue) ∨
           (current = ZoneId.Blue ∧ target_zone = ZoneId.Red) then e
        else
          { e with robots := e.robots.set j (Robot.set_action_transit target_zone bot) }

/-- `SimulationEngine.command_intake`: no-op on a busy robot; otherwise set
the action to `Intaking` with the given cooldown duration. -/
def commandIntake (robot_idx : Int) (duration : ℚ) (e : Engine) : Option Engine :=
  (pyResolve e.robots.length robot_idx).bind fun j =>
    (e.robots.get? j).map fun bot =>
      if bot.is_busy then e
      else
        let bot2 : Robot :=
          { bot with current_action := Action.Intaking, action_cooldown := duration }
        { e with robots := e.robots.set j bot2 }

/-- The dynamic shot/pass duration: `inventory / rate` with a fallback rate
of 1 when `balls_shot_per_sec ≤ 0`, floored at 0.1 seconds.  This is the
computation duplicated verbatim in `command_shoot` and `command_pass`. -/
def actionDuration (bot : Robot) : ℚ :=
  let rate := if bot.balls_shot_per_sec > 0 then bot.balls_shot_per_sec else 1
  let duration := bot.inventory / rate
  if duration < 1 / 10 then 1 / 10 else duration

/-- `SimulationEngine.command_shoot`: no-op if busy or not in the robot's
start (alliance) zone; otherwise set cooldown to the dynamic duration and
the action to `Shooting`. -/
def commandShoot (robot_idx : Int) (e : Engine) : Option Engine :=
  (pyResolve e.robots.length robot_idx).bind fun j =>
    (e.robots.get? j).map fun bot =>
      if bot.is_busy then e
      else if bot.current_zone_name ≠ bot.start_zone then e
      else
        let bot2 : Robot :=
          { bot with action_cooldown := actionDuration bot,
                     current_action := Action.Shooting }
        { e with robots := e.robots.set j bot2 }

/-- `SimulationEngine.command_pass`: no-op if busy or inside the robot's
start (alliance) zone; otherwise set cooldown to the dynamic duration and
the action to `Passing`. -/
def commandPass (robot_idx : Int) (e : Engine) : Option Engine :=
  (pyResolve e.robots.length robot_idx).bind fun j =>
    (e.robots.get? j).map fun bot =>
      if bot.is_busy then e
      else if bot.current_zone_name = bot.start_zone then e
      else
        let bot2 : Robot :=
          { bot with action_cooldown := actionDuration bot,
                     current_action := Action.Passing }
        { e with robots := e.robots.set j bot2 }

/-- One element of a driver's interaction with the engine: a command or an
`advance`/`step` call. -/
inductive Cmd where
  | move (robot_idx : Int) (target_zone : ZoneId)
  | intake (robot_idx : Int) (duration : ℚ)
  | shoot (robot_idx : Int)
  | passTo (robot_idx : Int)
  | advance (dt : ℚ)
deriving DecidableEq, Repr

/-- Apply one interaction element; `none` is an `IndexError` escaping from
a command (`step` itself never fails). -/
def applyCmd : Cmd → Engine → Option Engine
  | Cmd.move i z, e => commandMove i z e
  | Cmd.intake i d, e => commandIntake i d e
  | Cmd.shoot i, e => commandShoot i e
  | Cmd.passTo i, e => commandPass i e
  | Cmd.advance dt, e => some (step dt e)

/-- Run a whole interaction sequence. -/
def runCmds : List Cmd → Engine → Option Engine
  | [], e => some e
  | c :: cs, e => (applyCmd c e).bind (runCmds cs)


/-- The alliance zone of a team (the `home_zone` of the spec; every robot in
this repository is constructed with `start_zone` equal to it). -/
def allianceZone : Team → ZoneId
  | Team.Red => ZoneId.Red
  | Team.Blue => ZoneId.Blue

/-- Total of the three zone ball counts of a mid-loop state. -/
def midTotal (m : Mid) : ℚ :=
  m.zones.red + m.zones.blue + m.zones.neutral

/-- `sum(zone.balls for all zones) + sum(robot.inventory for all robots)`. -/
def invSum (e : Engine) : ℚ :=
  e.zones.red + e.zones.blue + e.zones.neutral +
    (e.robots.map Robot.inventory).sum

/-- The conservation invariant of the spec. -/
def conserved (e : Engine) : Prop := invSum e = TOTAL_BALLS

/-- The conserved sum as recorded in one history snapshot. -/
def snapSum (s : Snapshot) : ℚ :=
  s.red_balls + s.blue_balls + s.neutral_balls +
    (s.robot_states.map RobotSnap.inventory).sum

/-- The robot of the spec's concrete scenario: capacity 30, transit 2.0,
shot rate 8.0, intake efficiency 1.0, starting in Red with inventory 8
(the first `ROBOT_CONFIGS` entry of `config.py`). -/
def robotC3 : Robot := mkRobot Team.Red 1 30 2 8 1 ZoneId.Red 8

/-- The spec's concrete scenario engine: the single robot `robotC3`, its
starting inventory 8 debited from Neutral (496 left), as the repository's
drivers do after `add_robot`. -/
def engineC3 : Engine :=
  let e := addRobot robotC3 mkEngine
  { e with zones := { e.zones with neutral := e.zones.neutral - 8 } }

/-- The same robot but starting in the Neutral zone. -/
def robotC3n : Robot := mkRobot Team.Red 1 30 2 8 1 ZoneId.Neutral 8

/-- The concrete scenario with the robot placed in the Neutral zone, the
zone that actually holds the 496 balls. -/
def engineC3n : Engine :=
  let e := addRobot robotC3n mkEngine
  { e with zones := { e.zones with neutral := e.zones.neutral - 8 } }

/-- A busy robot: mid-`Intaking` with 2 seconds of cooldown left. -/
def robotBusy : Robot :=
  { mkRobot Team.Red 1 30 2 8 1 ZoneId.Red 8 with
      current_action := Action.Intaking, action_cooldown := 2 }

/-- An engine holding the busy robot `robotBusy`. -/
def engineBusy : Engine :=
  let e := addRobot robotBusy mkEngine
  { e with zones := { e.zones with neutral := e.zones.neutral - 8 } }

/-- An idle Red robot standing in the Neutral zone (for the pass rule). -/
def robotAway : Robot :=
  { mkRobot Team.Red 1 30 2 8 1 ZoneId.Red 8 with
      current_zone_name := ZoneId.Neutral }

/-- An engine holding `robotAway`. -/
def engineAway : Engine :=
  let e := addRobot robotAway mkEngine
  { e with zones := { e.zones with neutral := e.zones.neutral - 8 } }

/-- A robot one second from completing a `Shooting` action with 5 balls. -/
def robotShoot : Robot :=
  { mkRobot Team.Red 1 30 2 8 1 ZoneId.Red 5 with
      current_action := Action.Shooting, action_cooldown := 1 }

/-- A mid-loop state with some concrete zone balls and scores. -/
def midW : Mid := { zones := { red := 3, blue := 4, neutral := 5 },
                    red_score := 10, blue_score := 20 }

/-- The interaction sequence of the spec's concrete scenario. -/
def cmdsW : List Cmd := [Cmd.intake 0 1, Cmd.advance 1]

/-! ### Helper lemmas -/

theorem update_inventory (dt : ℚ) (bot : Robot) :
    (Robot.update dt bot).inventory = bot.inventory := by
  unfold Robot.update
  by_cases h : bot.action_cooldown > 0
  · by_cases h2 : bot.action_cooldown - dt ≤ 0 <;> simp [h, h2]
  · simp [h]

theorem update_zone (dt : ℚ) (bot : Robot) :
    (Robot.update dt bot).current_zone_name = bot.current_zone_name := by
  unfold Robot.update
  by_cases h : bot.action_cooldown > 0
  · by_cases h2 : bot.action_cooldown - dt ≤ 0 <;> simp [h, h2]
  · simp [h]

theorem processIntake_total (m : Mid) (bot : Robot) (dt : ℚ) :
    midTotal (processIntake m bot dt).1 + (processIntake m bot dt).2.inventory
      = midTotal m + bot.inventory := by
  simp only [processIntake]
  split_ifs with h
  · rfl
  · cases hz : bot.current_zone_name <;>
      simp [midTotal, Zones.set, Zones.get, hz] <;> ring

theorem onActionComplete_total (rh bh : HubStatus) (m : Mid) (bot : Robot)
    (act : Action) :
    midTotal (onActionComplete rh bh m bot act).1
        + (onActionComplete rh bh m bot act).2.inventory
      = midTotal m + bot.inventory := by
  unfold onActionComplete
  cases act with
  | Idle => simp [midTotal]
  | MovingTo z => simp [midTotal]
  | Intaking => simp [midTotal]
  | Shooting => split_ifs <;> simp [midTotal] <;> ring
  | Passing => cases bot.team <;> simp [midTotal] <;> ring

theorem processBot_total (rh bh : HubStatus) (dt : ℚ) (m : Mid) (bot : Robot) :
    midTotal (processBot rh bh dt m bot).1 + (processBot rh bh dt m bot).2.inventory
      = midTotal m + bot.inventory := by
  simp only [processBot]
  split_ifs with h1 h2 h2
  · rw [onActionComplete_total, update_inventory]
    exact processIntake_total m bot dt
  · show midTotal (processIntake m bot dt).1
        + (Robot.update dt (processIntake m bot dt).2).inventory
      = midTotal m + bot.inventory
    rw [update_inventory]
    exact processIntake_total m bot dt
  · rw [onActionComplete_total, update_inventory]
  · show midTotal m + (Robot.update dt bot).inventory = midTotal m + bot.inventory
    rw [update_inventory]

theorem stepRobots_total (rh bh : HubStatus) (dt : ℚ) :
    ∀ (l : List Robot) (m : Mid),
      midTotal (stepRobots rh bh dt m l).1
          + ((stepRobots rh bh dt m l).2.map Robot.inventory).sum
        = midTotal m + (l.map Robot.inventory).sum := by
  intro l
  induction l with
  | nil => intro m; simp [stepRobots]
  | cons bot rest ih =>
      intro m
      simp only [stepRobots, List.map_cons, List.sum_cons]
      have h1 := processBot_total rh bh dt m bot
      have h2 := ih (processBot rh bh dt m bot).1
      linarith

theorem step_invSum (dt : ℚ) (e : Engine) : invSum (step dt e) = invSum e := by
  have h := stepRobots_total
    (updateHubStatus (e.time + dt) e.red_hub_status e.blue_hub_status).1
    (updateHubStatus (e.time + dt) e.red_hub_status e.blue_hub_status).2
    dt e.robots
    { zones := e.zones, red_score := e.red_score, blue_score := e.blue_score }
  simp only [step, invSum, midTotal] at h ⊢
  linarith

theorem snapSum_mkSnapshot (e : Engine) : snapSum (mkSnapshot e) = invSum e := by
  simp only [snapSum, mkSnapshot, invSum, List.map_map]
  rfl

theorem step_history_eq (dt : ℚ) (e : Engine) :
    (step dt e).history = e.history ++ [mkSnapshot (step dt e)] := by
  rfl

theorem step_conservation (dt : ℚ) (e : Engine) (h : conserved e)
    (hh : ∀ s ∈ e.history, snapSum s = TOTAL_BALLS) :
    conserved (step dt e) ∧ ∀ s ∈ (step dt e).history, snapSum s = TOTAL_BALLS := by
  have h1 : conserved (step dt e) := by
    unfold conserved
    rw [step_invSum]
    exact h
  refine ⟨h1, ?_⟩
  intro s hs
  rw [step_history_eq] at hs
  rcases List.mem_append.1 hs with hs | hs
  · exact hh s hs
  · have : s = mkSnapshot (step dt e) := by simpa using hs
    rw [this, snapSum_mkSnapshot]
    exact h1

theorem sum_map_set :
    ∀ (l : List Robot) (j : Nat) (a b : Robot), l.get? j = some a →
      b.inventory = a.inventory →
      ((l.set j b).map Robot.inventory).sum = (l.map Robot.inventory).sum := by
  intro l
  induction l with
  | nil => intro j a b h _; simp at h
  | cons x xs ih =>
      intro j a b h hb
      cases j with
      | zero =>
          simp only [List.get?] at h
          injection h with h
          simp [List.set, hb, h]
      | succ n =>
          simp only [List.get?] at h
          simp only [List.set, List.map_cons, List.sum_cons]
          rw [ih n a b h hb]

theorem invSum_set_robot {e : Engine} {j : Nat} {a b : Robot}
    (hg : e.robots.get? j = some a) (hb : b.inventory = a.inventory) :
    invSum { e with robots := e.robots.set j b } = invSum e := by
  simp only [invSum]
  rw [sum_map_set e.robots j a b hg hb]

theorem commandMove_eq (i : Int) (z : ZoneId) (e : Engine) {j : Nat} {bot : Robot}
    (hr : pyResolve e.robots.length i = some j) (hg : e.robots.get? j = some bot) :
    commandMove i z e = some (
      if bot.is_busy then e
      else if (bot.current_zone_name = ZoneId.Red ∧ z = ZoneId.Blue) ∨
              (bot.current_zone_name = ZoneId.Blue ∧ z = ZoneId.Red) then e
      else { e with robots := e.robots.set j (Robot.set_action_transit z bot) }) := by
  unfold commandMove
  rw [hr]
  simp only [Option.some_bind]
  rw [hg]
  rfl

theorem commandIntake_eq (i : Int) (d : ℚ) (e : Engine) {j : Nat} {bot : Robot}
    (hr : pyResolve e.robots.length i = some j) (hg : e.robots.get? j = some bot) :
    commandIntake i d e = some (
      if bot.is_busy then e
      else { e with robots := e.robots.set j { bot with current_action := Action.Intaking, action_cooldown := d } }) := by
  unfold commandIntake
  rw [hr]
  simp only [Option.some_bind]
  rw [hg]
  rfl

theorem commandShoot_eq (i : Int) (e : Engine) {j : Nat} {bot : Robot}
    (hr : pyResolve e.robots.length i = some j) (hg : e.robots.get? j = some bot) :
    commandShoot i e = some (
      if bot.is_busy then e
      else if bot.current_zone_name ≠ bot.start_zone then e
      else { e with robots := e.robots.set j { bot with action_cooldown := actionDuration bot, current_action := Action.Shooting } }) := by
  unfold commandShoot
  rw [hr]
  simp only [Option.some_bind]
  rw [hg]
  rfl

theorem commandPass_eq (i : Int) (e : Engine) {j : Nat} {bot : Robot}
    (hr : pyResolve e.robots.length i = some j) (hg : e.robots.get? j = some bot) :
    commandPass i e = some (
      if bot.is_busy then e
      else if bot.current_zone_name = bot.start_zone then e
      else { e with robots := e.robots.set j { bot with action_cooldown := actionDuration bot, current_action := Action.Passing } }) := by
  unfold commandPass
  rw [hr]
  simp only [Option.some_bind]
  rw [hg]
  rfl

theorem commandMove_inv (i : Int) (z : ZoneId) (e e1 : Engine)
    (h : commandMove i z e = some e1) :
    invSum e1 = invSum e ∧ e1.history = e.history := by
  cases hr : pyResolve e.robots.length i with
  | none => unfold commandMove at h; rw [hr] at h; simp at h
  | some j =>
      cases hg : e.robots.get? j with
      | none =>
          unfold commandMove at h
          rw [hr] at h
          simp only [Option.some_bind] at h
          rw [hg] at h
          simp at h
      | some bot =>
          rw [commandMove_eq i z e hr hg] at h
          injection h with h
          rw [← h]
          split_ifs
          · exact ⟨rfl, rfl⟩
          · exact ⟨rfl, rfl⟩
          · exact ⟨invSum_set_robot hg rfl, rfl⟩

theorem commandIntake_inv (i : Int) (d : ℚ) (e e1 : Engine)
    (h : commandIntake i d e = some e1) :
    invSum e1 = invSum e ∧ e1.history = e.history := by
  cases hr : pyResolve e.robots.length i with
  | none => unfold commandIntake at h; rw [hr] at h; simp at h
  | some j =>
      cases hg : e.robots.get? j with
      | none =>
          unfold commandIntake at h
          rw [hr] at h
          simp only [Option.some_bind] at h
          rw [hg] at h
          simp at h
      | some bot =>
          rw [commandIntake_eq i d e hr hg] at h
          injection h with h
          rw [← h]
          split_ifs
          · exact ⟨rfl, rfl⟩
          · exact ⟨invSum_set_robot hg rfl, rfl⟩

theorem commandShoot_inv (i : Int) (e e1 : Engine)
    (h : commandShoot i e = some e1) :
    invSum e1 = invSum e ∧ e1.history = e.history := by
  cases hr : pyResolve e.robots.length i with
  | none => unfold commandShoot at h; rw [hr] at h; simp at h
  | some j =>
      cases hg : e.robots.get? j with
      | none =>
          unfold commandShoot at h
          rw [hr] at h
          simp only [Option.some_bind] at h
          rw [hg] at h
          simp at h
      | some bot =>
          rw [commandShoot_eq i e hr hg] at h
          injection h with h
          rw [← h]
          split_ifs
          · exact ⟨rfl, rfl⟩
          · exact ⟨rfl, rfl⟩
          · exact ⟨invSum_set_robot hg rfl, rfl⟩

theorem commandPass_inv (i : Int) (e e1 : Engine)
    (h : commandPass i e = some e1) :
    invSum e1 = invSum e ∧ e1.history = e.history := by
  cases hr : pyResolve e.robots.length i with
  | none => unfold commandPass at h; rw [hr] at h; simp at h
  | some j =>
      cases hg : e.robots.get? j with
      | none =>
          unfold commandPass at h
          rw [hr] at h
          simp only [Option.some_bind] at h
          rw [hg] at h
          simp at h
      | some bot =>
          rw [commandPass_eq i e hr hg] at h
          injection h with h
          rw [← h]
          split_ifs
          · exact ⟨rfl, rfl⟩
          · exact ⟨rfl, rfl⟩
          · exact ⟨invSum_set_robot hg rfl, rfl⟩

theorem applyCmd_conservation (c : Cmd) (e e1 : Engine)
    (hc : applyCmd c e = some e1)
    (h : conserved e) (hh : ∀ s ∈ e.history, snapSum s = TOTAL_BALLS) :
    conserved e1 ∧ ∀ s ∈ e1.history, snapSum s = TOTAL_BALLS := by
  cases c with
  | move i z =>
      obtain ⟨h1, h2⟩ := commandMove_inv i z e e1 hc
      refine ⟨by unfold conserved at h ⊢; rw [h1]; exact h, ?_⟩
      intro s hs; rw [h2] at hs; exact hh s hs
  | intake i d =>
      obtain ⟨h1, h2⟩ := commandIntake_inv i d e e1 hc
      refine ⟨by unfold conserved at h ⊢; rw [h1]; exact h, ?_⟩
      intro s hs; rw [h2] at hs; exact hh s hs
  | shoot i =>
      obtain ⟨h1, h2⟩ := commandShoot_inv i e e1 hc
      refine ⟨by unfold conserved at h ⊢; rw [h1]; exact h, ?_⟩
      intro s hs; rw [h2] at hs; exact hh s hs
  | passTo i =>
      obtain ⟨h1, h2⟩ := commandPass_inv i e e1 hc
      refine ⟨by unfold conserved at h ⊢; rw [h1]; exact h, ?_⟩
      intro s hs; rw [h2] at hs; exact hh s hs
  | advance dt =>
      have hstep := step_conservation dt e h hh
      unfold applyCmd at hc
      injection hc with hc
      rw [← hc]
      exact hstep

/-! ### Claim theorems -/

/-- Claim C1: for every sequence of commands and `advance` calls on an engine
whose initial state satisfies the conservation invariant (any robot starting
inventory debited from Neutral), the sum of balls over the three zones plus
the sum of all robot inventories equals `TOTAL_BALLS` (504) afterwards and in
every recorded snapshot (exactly, hence within floating-point tolerance). -/
theorem conservation_every_snapshot :
    ∀ (cs : List Cmd) (e e1 : Engine), runCmds cs e = some e1 →
      conserved e → (∀ s ∈ e.history, snapSum s = TOTAL_BALLS) →
      conserved e1 ∧ ∀ s ∈ e1.history, snapSum s = TOTAL_BALLS := by
  intro cs
  induction cs with
  | nil =>
      intro e e1 h hc hh
      simp only [runCmds] at h
      injection h with h
      rw [← h]
      exact ⟨hc, hh⟩
  | cons c rest ih =>
      intro e e1 h hc hh
      simp only [runCmds] at h
      cases ha : applyCmd c e with
      | none => rw [ha] at h; simp at h
      | some e2 =>
          rw [ha] at h
          simp only [Option.some_bind] at h
          obtain ⟨h1, h2⟩ := applyCmd_conservation c e e2 ha hc hh
          exact ih e2 e1 h h1 h2

/-- Witness for C1 at the concrete scenario engine and command sequence. -/
theorem conservation_every_snapshot_witness :
    conserved engineC3 ∧ (runCmds cmdsW engineC3).elim False conserved := by
  have hc : conserved engineC3 := by
    norm_num [conserved, invSum, engineC3, robotC3, mkRobot, mkEngine, addRobot,
      TOTAL_BALLS]
  have hh : ∀ s ∈ engineC3.history, snapSum s = TOTAL_BALLS := by
    intro s hs
    simp [engineC3, addRobot, mkEngine] at hs
  refine ⟨hc, ?_⟩
  cases he : runCmds cmdsW engineC3 with
  | none =>
      norm_num [cmdsW, runCmds, applyCmd, commandIntake, engineC3, robotC3, mkRobot,
        mkEngine, addRobot, pyResolve, Robot.is_busy, step, stepRobots, processBot,
        processIntake, calculateIntakeRate, getZoneDensity, Zones.get, Zones.set,
        Robot.update, onActionComplete, updateHubStatus, mkSnapshot, TOTAL_BALLS,
        MAX_INTAKE_RATE, MATCH_DURATION, AUTO_DURATION, SHIFT_START_TIME,
        SHIFT_DURATION] at he
      exact (Option.some_ne_none _ he).elim
  | some e1 =>
      exact (conservation_every_snapshot cmdsW engineC3 e1 he hc hh).1

/-- Claim C2: a robot completing a `Shooting` action (falling edge of its
cooldown during an `advance` robot-loop iteration, i.e. `processBot`) has its
inventory zeroed, the Neutral zone gains exactly the pre-shot inventory
regardless of hub status, the other zones are unchanged, and the shooter's
alliance score gains exactly the pre-shot inventory precisely when that
alliance's hub is `Active` at that instant (the other score is unchanged). -/
theorem shooting_completion (rh bh : HubStatus) (dt : ℚ) (m : Mid) (bot : Robot)
    (hact : bot.current_action = Action.Shooting)
    (hpos : 0 < bot.action_cooldown)
    (hdone : bot.action_cooldown - dt ≤ 0) :
    (processBot rh bh dt m bot).2.inventory = 0 ∧
    (processBot rh bh dt m bot).2.current_action = Action.Idle ∧
    (processBot rh bh dt m bot).1.zones.neutral = m.zones.neutral + bot.inventory ∧
    (processBot rh bh dt m bot).1.zones.red = m.zones.red ∧
    (processBot rh bh dt m bot).1.zones.blue = m.zones.blue ∧
    (bot.team = Team.Red →
      (processBot rh bh dt m bot).1.red_score
          = (if rh = HubStatus.Active then m.red_score + bot.inventory
             else m.red_score) ∧
      (processBot rh bh dt m bot).1.blue_score = m.blue_score) ∧
    (bot.team = Team.Blue →
      (processBot rh bh dt m bot).1.blue_score
          = (if bh = HubStatus.Active then m.blue_score + bot.inventory
             else m.blue_score) ∧
      (processBot rh bh dt m bot).1.red_score = m.red_score) := by
  have hno : ¬ (bot.current_action = Action.Intaking ∧ bot.action_cooldown > 0) := by
    rw [hact]; simp
  have hup : Robot.update dt bot
      = { bot with action_cooldown := 0, current_action := Action.Idle } := by
    unfold Robot.update
    rw [if_pos hpos, if_pos hdone]
  have hedge : bot.action_cooldown > 0 ∧ (Robot.update dt bot).action_cooldown ≤ 0 := by
    rw [hup]; exact ⟨hpos, le_refl 0⟩
  have key : processBot rh bh dt m bot
      = onActionComplete rh bh m (Robot.update dt bot) Action.Shooting := by
    simp only [processBot]
    rw [if_neg hno]
    dsimp only
    rw [if_pos hedge, hact]
  rw [key, hup]
  simp only [onActionComplete]
  cases hteam : bot.team with
  | Red =>
      cases hrh : rh <;> simp [hteam, hrh]
  | Blue =>
      cases hbh : bh <;> cases hrh : rh <;> simp [hteam, hbh, hrh]

/-- Witness for C2: a Red robot with 5 balls finishing a shot with the Red
hub `Active` scores 5 and recirculates 5 into Neutral. -/
theorem shooting_completion_witness :
    robotShoot.current_action = Action.Shooting ∧
    (0 : ℚ) < robotShoot.action_cooldown ∧
    robotShoot.action_cooldown - 1 ≤ 0 ∧
    (processBot HubStatus.Active HubStatus.Inactive 1 midW robotShoot).2.inventory = 0 ∧
    (processBot HubStatus.Active HubStatus.Inactive 1 midW robotShoot).1.zones.neutral
      = midW.zones.neutral + robotShoot.inventory := by
  have h1 : robotShoot.current_action = Action.Shooting := rfl
  have h2 : (0 : ℚ) < robotShoot.action_cooldown := by
    norm_num [robotShoot, mkRobot]
  have h3 : robotShoot.action_cooldown - 1 ≤ 0 := by
    norm_num [robotShoot, mkRobot]
  have h := shooting_completion HubStatus.Active HubStatus.Inactive 1 midW robotShoot h1 h2 h3
  exact ⟨h1, h2, h3, h.1, h.2.2.1⟩

/-- Claim C3 is false as stated: with the single robot starting in the Red
zone (as the claim says), `intake(duration=1.0)` followed by one
`advance(1.0)` leaves the inventory at 8 (an increase of 0, not
`1.0 * (496/504) * 6.0`) and the Neutral zone unchanged at 496, because
`_process_intake` draws from the robot's current zone (Red, holding 0
balls), not from Neutral.  The action does return to `Idle`. -/
theorem scenario_red_counterexample :
    (commandIntake 0 1 engineC3).isSome = true ∧
    (step 1 ((commandIntake 0 1 engineC3).getD mkEngine)).robots.map Robot.inventory
      = [8] ∧
    (step 1 ((commandIntake 0 1 engineC3).getD mkEngine)).zones.neutral = 496 ∧
    (step 1 ((commandIntake 0 1 engineC3).getD mkEngine)).robots.map Robot.current_action
      = [Action.Idle] ∧
    ¬ ((8 : ℚ) + 1 * (496 / 504) * 6 = 8) := by
  refine ⟨?_, ?_, ?_, ?_, by norm_num⟩ <;>
    norm_num [commandIntake, engineC3, robotC3, engineC3n, robotC3n, mkRobot,
      mkEngine, addRobot, pyResolve, Robot.is_busy, step, stepRobots, processBot,
      processIntake, calculateIntakeRate, getZoneDensity, Zones.get, Zones.set,
      Robot.update, onActionComplete, updateHubStatus, mkSnapshot, TOTAL_BALLS,
      MAX_INTAKE_RATE, MATCH_DURATION, AUTO_DURATION, SHIFT_START_TIME,
      SHIFT_DURATION]

/-- Claim C3 amended: with the robot starting in the Neutral zone (the zone
holding the 496 balls), `intake(duration=1.0)` then `advance(1.0)` increases
the inventory by exactly `1.0 * (496/504) * 6.0 = 124/21 ≈ 5.90` (to
`292/21`), decreases Neutral by the same amount (to `10292/21`), and leaves
the action `Idle`. -/
theorem scenario_neutral_amended :
    (commandIntake 0 1 engineC3n).isSome = true ∧
    (step 1 ((commandIntake 0 1 engineC3n).getD mkEngine)).robots.map Robot.inventory
      = [8 + 1 * (496 / 504) * 6] ∧
    (step 1 ((commandIntake 0 1 engineC3n).getD mkEngine)).zones.neutral
      = 496 - 1 * (496 / 504) * 6 ∧
    (step 1 ((commandIntake 0 1 engineC3n).getD mkEngine)).robots.map Robot.current_action
      = [Action.Idle] := by
  refine ⟨?_, ?_, ?_, ?_⟩ <;>
    norm_num [commandIntake, engineC3, robotC3, engineC3n, robotC3n, mkRobot,
      mkEngine, addRobot, pyResolve, Robot.is_busy, step, stepRobots, processBot,
      processIntake, calculateIntakeRate, getZoneDensity, Zones.get, Zones.set,
      Robot.update, onActionComplete, updateHubStatus, mkSnapshot, TOTAL_BALLS,
      MAX_INTAKE_RATE, MATCH_DURATION, AUTO_DURATION, SHIFT_START_TIME,
      SHIFT_DURATION]

/-- Claim C4: with `SHIFT_START_TIME = 30`, `SHIFT_DURATION = 25`,
`MATCH_DURATION = 160` and `AUTO_DURATION = 20`, any `advance` call that
brings the engine's time to exactly 30 leaves Red `Active` and Blue
`Inactive`; to exactly 55, Red `Inactive` and Blue `Active`; to exactly 130
(endgame window), both `Active`. -/
theorem hub_cycle_determinism (e : Engine) (dt : ℚ) :
    (e.time + dt = 30 →
      (step dt e).red_hub_status = HubStatus.Active ∧
      (step dt e).blue_hub_status = HubStatus.Inactive) ∧
    (e.time + dt = 55 →
      (step dt e).red_hub_status = HubStatus.Inactive ∧
      (step dt e).blue_hub_status = HubStatus.Active) ∧
    (e.time + dt = 130 →
      (step dt e).red_hub_status = HubStatus.Active ∧
      (step dt e).blue_hub_status = HubStatus.Active) := by
  have hred : (step dt e).red_hub_status
      = (updateHubStatus (e.time + dt) e.red_hub_status e.blue_hub_status).1 := rfl
  have hblue : (step dt e).blue_hub_status
      = (updateHubStatus (e.time + dt) e.red_hub_status e.blue_hub_status).2 := rfl
  refine ⟨fun h => ?_, fun h => ?_, fun h => ?_⟩ <;>
    rw [hred, hblue, h] <;>
    norm_num [updateHubStatus, MATCH_DURATION, AUTO_DURATION, SHIFT_START_TIME,
      SHIFT_DURATION]

/-- Witness for C4 on a fresh engine advanced straight to times 30, 55, 130. -/
theorem hub_cycle_determinism_witness :
    mkEngine.time + 30 = 30 ∧ mkEngine.time + 55 = 55 ∧ mkEngine.time + 130 = 130 ∧
    (step 30 mkEngine).red_hub_status = HubStatus.Active ∧
    (step 30 mkEngine).blue_hub_status = HubStatus.Inactive ∧
    (step 55 mkEngine).red_hub_status = HubStatus.Inactive ∧
    (step 55 mkEngine).blue_hub_status = HubStatus.Active ∧
    (step 130 mkEngine).red_hub_status = HubStatus.Active ∧
    (step 130 mkEngine).blue_hub_status = HubStatus.Active := by
  have h30 : mkEngine.time + 30 = 30 := by norm_num [mkEngine]
  have h55 : mkEngine.time + 55 = 55 := by norm_num [mkEngine]
  have h130 : mkEngine.time + 130 = 130 := by norm_num [mkEngine]
  obtain ⟨a, b⟩ := (hub_cycle_determinism mkEngine 30).1 h30
  obtain ⟨c, d⟩ := (hub_cycle_determinism mkEngine 55).2.1 h55
  obtain ⟨f, g⟩ := (hub_cycle_determinism mkEngine 130).2.2 h130
  exact ⟨h30, h55, h130, a, b, c, d, f, g⟩

/-- Claim C5: every command issued to a busy robot (`cooldown > 0`) is a
silent no-op: the entire engine state is unchanged and no error is raised. -/
theorem busy_commands_noop (e : Engine) (i : Int) (j : Nat) (bot : Robot)
    (z : ZoneId) (d : ℚ)
    (hr : pyResolve e.robots.length i = some j)
    (hg : e.robots.get? j = some bot)
    (hb : bot.is_busy) :
    commandMove i z e = some e ∧ commandIntake i d e = some e ∧
    commandShoot i e = some e ∧ commandPass i e = some e := by
  rw [commandMove_eq i z e hr hg, commandIntake_eq i d e hr hg,
      commandShoot_eq i e hr hg, commandPass_eq i e hr hg]
  refine ⟨?_, ?_, ?_, ?_⟩ <;> rw [if_pos hb]

/-- Witness for C5: the busy robot of `engineBusy` rejects all four commands. -/
theorem busy_commands_noop_witness :
    robotBusy.is_busy ∧
    commandMove 0 ZoneId.Neutral engineBusy = some engineBusy ∧
    commandIntake 0 1 engineBusy = some engineBusy ∧
    commandShoot 0 engineBusy = some engineBusy ∧
    commandPass 0 engineBusy = some engineBusy := by
  have hr : pyResolve engineBusy.robots.length 0 = some 0 := rfl
  have hg : engineBusy.robots.get? 0 = some robotBusy := rfl
  have hb : robotBusy.is_busy := by norm_num [robotBusy, mkRobot, Robot.is_busy]
  obtain ⟨a, b, c, d⟩ :=
    busy_commands_noop engineBusy 0 0 robotBusy ZoneId.Neutral 1 hr hg hb
  exact ⟨hb, a, b, c, d⟩

/-- Claim C6: a `move` command sending a robot currently in Red to Blue, or
one currently in Blue to Red, is always rejected as a no-op (the engine, and
hence the robot's action, cooldown and zone, is unchanged), regardless of any
other state. -/
theorem no_direct_crossing (e : Engine) (i : Int) (j : Nat) (bot : Robot)
    (hr : pyResolve e.robots.length i = some j)
    (hg : e.robots.get? j = some bot) :
    (bot.current_zone_name = ZoneId.Red → commandMove i ZoneId.Blue e = some e) ∧
    (bot.current_zone_name = ZoneId.Blue → commandMove i ZoneId.Red e = some e) := by
  refine ⟨fun hz => ?_, fun hz => ?_⟩
  · rw [commandMove_eq i ZoneId.Blue e hr hg]
    by_cases hb : bot.is_busy
    · rw [if_pos hb]
    · rw [if_neg hb, if_pos (Or.inl ⟨hz, rfl⟩)]
  · rw [commandMove_eq i ZoneId.Red e hr hg]
    by_cases hb : bot.is_busy
    · rw [if_pos hb]
    · rw [if_neg hb, if_pos (Or.inr ⟨hz, rfl⟩)]

/-- Witness for C6: the idle Red-zone robot of `engineC3` cannot be moved
straight to Blue. -/
theorem no_direct_crossing_witness :
    robotC3.current_zone_name = ZoneId.Red ∧
    commandMove 0 ZoneId.Blue engineC3 = some engineC3 := by
  have hr : pyResolve engineC3.robots.length 0 = some 0 := rfl
  have hg : engineC3.robots.get? 0 = some robotC3 := rfl
  exact ⟨rfl, (no_direct_crossing engineC3 0 0 robotC3 hr hg).1 rfl⟩

/-- Claim C7: an idle robot's `shoot` is accepted (action becomes `Shooting`
with the dynamic duration) iff its current zone is its home (alliance) zone,
and `pass` is accepted iff its current zone is not its home zone; a rejected
`shoot` or `pass` leaves the engine unchanged.  The hypothesis `hhome`
records that the robot was created with `start_zone` equal to its alliance
zone, as every robot in this repository is. -/
theorem shoot_pass_home_zone (e : Engine) (i : Int) (j : Nat) (bot : Robot)
    (hr : pyResolve e.robots.length i = some j)
    (hg : e.robots.get? j = some bot)
    (hidle : ¬ bot.is_busy)
    (hhome : bot.start_zone = allianceZone bot.team) :
    (bot.current_zone_name = allianceZone bot.team →
      commandShoot i e = some { e with robots := e.robots.set j { bot with action_cooldown := actionDuration bot, current_action := Action.Shooting } } ∧
      commandPass i e = some e) ∧
    (bot.current_zone_name ≠ allianceZone bot.team →
      commandShoot i e = some e ∧
      commandPass i e = some { e with robots := e.robots.set j { bot with action_cooldown := actionDuration bot, current_action := Action.Passing } }) := by
  rw [← hhome]
  refine ⟨fun hz => ⟨?_, ?_⟩, fun hz => ⟨?_, ?_⟩⟩
  · rw [commandShoot_eq i e hr hg, if_neg hidle, if_neg (not_not_intro hz)]
  · rw [commandPass_eq i e hr hg, if_neg hidle, if_pos hz]
  · rw [commandShoot_eq i e hr hg, if_neg hidle, if_pos hz]
  · rw [commandPass_eq i e hr hg, if_neg hidle, if_neg hz]

/-- Witness for C7: the home-zone robot of `engineC3` may shoot but not
pass; the Neutral-zone robot of `engineAway` may pass but not shoot. -/
theorem shoot_pass_home_zone_witness :
    ¬ robotC3.is_busy ∧
    robotC3.current_zone_name = allianceZone robotC3.team ∧
    commandShoot 0 engineC3 = some { engineC3 with robots := engineC3.robots.set 0 { robotC3 with action_cooldown := actionDuration robotC3, current_action := Action.Shooting } } ∧
    commandPass 0 engineC3 = some engineC3 ∧
    ¬ robotAway.is_busy ∧
    robotAway.current_zone_name ≠ allianceZone robotAway.team ∧
    commandShoot 0 engineAway = some engineAway ∧
    commandPass 0 engineAway = some { engineAway with robots := engineAway.robots.set 0 { robotAway with action_cooldown := actionDuration robotAway, current_action := Action.Passing } } := by
  have hi1 : ¬ robotC3.is_busy := by norm_num [robotC3, mkRobot, Robot.is_busy]
  have hi2 : ¬ robotAway.is_busy := by norm_num [robotAway, mkRobot, Robot.is_busy]
  obtain ⟨a, b⟩ := (shoot_pass_home_zone engineC3 0 0 robotC3 rfl rfl hi1 rfl).1 rfl
  obtain ⟨c, d⟩ :=
    (shoot_pass_home_zone engineAway 0 0 robotAway rfl rfl hi2 rfl).2 (by decide)
  exact ⟨hi1, rfl, a, b, hi2, by decide, c, d⟩

/-- Claim C8 is violated by the code: `step` checks nothing about `dt`.  A
non-positive `dt` is silently absorbed and mutates the engine: a fresh engine
stepped with `dt = -1` gets `time = -1` and a freshly appended history
snapshot, and `dt = 0` likewise mutates state; there is no error/result or
assertion anywhere in `step` (it is a total function into `Engine`). -/
theorem step_nonpositive_dt_absorbed :
    (step (-1) mkEngine).time = -1 ∧
    (step (-1) mkEngine).history.length = 1 ∧
    (step 0 mkEngine).time = 0 ∧
    (step 0 mkEngine).history.length = 1 := by
  refine ⟨?_, ?_, ?_, ?_⟩ <;>
    norm_num [step, mkEngine, stepRobots, updateHubStatus, mkSnapshot,
      MATCH_DURATION, AUTO_DURATION, SHIFT_START_TIME, SHIFT_DURATION,
      TOTAL_BALLS]

/-- Claim C9: commands given a negative robot index whose absolute value is
at most the robot count do not fail (`IndexError`): Python list indexing
makes them address the robot counted from the end of the list, and they can
mutate that robot (here: `intake` on the idle robot at position
`length - k`). -/
theorem negative_index_addresses_from_end (e : Engine) (k : Nat) (z : ZoneId)
    (d : ℚ) (bot : Robot)
    (hk1 : 1 ≤ k) (hk2 : k ≤ e.robots.length)
    (hg : e.robots.get? (e.robots.length - k) = some bot)
    (hidle : ¬ bot.is_busy) :
    pyResolve e.robots.length (-(k : Int)) = some (e.robots.length - k) ∧
    pyGet e.robots (-(k : Int)) = some bot ∧
    commandMove (-(k : Int)) z e = commandMove ((e.robots.length - k : Nat) : Int) z e ∧
    commandIntake (-(k : Int)) d e = commandIntake ((e.robots.length - k : Nat) : Int) d e ∧
    commandShoot (-(k : Int)) e = commandShoot ((e.robots.length - k : Nat) : Int) e ∧
    commandPass (-(k : Int)) e = commandPass ((e.robots.length - k : Nat) : Int) e ∧
    commandIntake (-(k : Int)) d e = some { e with robots := e.robots.set (e.robots.length - k) { bot with current_action := Action.Intaking, action_cooldown := d } } := by
  have hneg : pyResolve e.robots.length (-(k : Int)) = some (e.robots.length - k) := by
    unfold pyResolve
    have h1 : ¬ (0 ≤ -(k : Int)) := by omega
    have h2 : (-(-(k : Int))).toNat ≤ e.robots.length := by omega
    rw [if_neg h1, if_pos h2]
    congr 1
    omega
  have hpos : pyResolve e.robots.length ((e.robots.length - k : Nat) : Int)
      = some (e.robots.length - k) := by
    unfold pyResolve
    have h1 : 0 ≤ ((e.robots.length - k : Nat) : Int) := by omega
    have h2 : ((e.robots.length - k : Nat) : Int).toNat < e.robots.length := by omega
    rw [if_pos h1, if_pos h2]
    congr 1
  refine ⟨hneg, ?_, ?_, ?_, ?_, ?_, ?_⟩
  · unfold pyGet
    rw [hneg]
    simp only [Option.some_bind]
    exact hg
  · unfold commandMove; rw [hneg, hpos]
  · unfold commandIntake; rw [hneg, hpos]
  · unfold commandShoot; rw [hneg, hpos]
  · unfold commandPass; rw [hneg, hpos]
  · rw [commandIntake_eq (-(k : Int)) d e hneg hg, if_neg hidle]

/-- Witness for C9: index -1 on the single-robot `engineC3` addresses robot
0 and the `intake` command mutates it. -/
theorem negative_index_addresses_from_end_witness :
    1 ≤ engineC3.robots.length ∧
    pyResolve engineC3.robots.length (-(1 : Int)) = some 0 ∧
    pyGet engineC3.robots (-(1 : Int)) = some robotC3 ∧
    commandIntake (-(1 : Int)) 1 engineC3 = some { engineC3 with robots := engineC3.robots.set 0 { robotC3 with current_action := Action.Intaking, action_cooldown := 1 } } := by
  have hi : ¬ robotC3.is_busy := by norm_num [robotC3, mkRobot, Robot.is_busy]
  obtain ⟨a, b, _, _, _, _, c⟩ :=
    negative_index_addresses_from_end engineC3 1 ZoneId.Neutral 1 robotC3
      (le_refl 1) (by decide) rfl hi
  exact ⟨by decide, a, b, c⟩

/-- Claim C10: `intake` on an idle robot with `duration ≤ 0` is accepted and
sets the action to `Intaking` with a non-positive cooldown; the robot is not
busy (it still accepts commands) but the action never resolves: one
`advance` robot-loop iteration (`processBot`) transfers nothing and leaves
the robot — still `Intaking`, not `Idle` — completely unchanged, breaking
the "cooldown 0 implies Idle" expectation. -/
theorem intake_nonpositive_duration_stuck (e : Engine) (i : Int) (j : Nat)
    (bot : Robot) (d : ℚ)
    (hr : pyResolve e.robots.length i = some j)
    (hg : e.robots.get? j = some bot)
    (hidle : ¬ bot.is_busy) (hd : d ≤ 0) :
    commandIntake i d e = some { e with robots := e.robots.set j { bot with current_action := Action.Intaking, action_cooldown := d } } ∧
    ({ bot with current_action := Action.Intaking, action_cooldown := d } : Robot).current_action = Action.Intaking ∧
    ¬ ({ bot with current_action := Action.Intaking, action_cooldown := d } : Robot).is_busy ∧
    ({ bot with current_action := Action.Intaking, action_cooldown := d } : Robot).current_action ≠ Action.Idle ∧
    (∀ rh bh dt m, processBot rh bh dt m { bot with current_action := Action.Intaking, action_cooldown := d } = (m, { bot with current_action := Action.Intaking, action_cooldown := d })) := by
  refine ⟨?_, rfl, not_lt.2 hd, by simp, ?_⟩
  · rw [commandIntake_eq i d e hr hg, if_neg hidle]
  · intro rh bh dt m
    have hd1 : ¬ (0 : ℚ) < d := not_lt.2 hd
    simp [processBot, Robot.update, hd1]

/-- Witness for C10: `intake(duration=0)` on the idle robot of `engineC3`. -/
theorem intake_nonpositive_duration_stuck_witness :
    ¬ robotC3.is_busy ∧ (0 : ℚ) ≤ 0 ∧
    commandIntake 0 0 engineC3 = some { engineC3 with robots := engineC3.robots.set 0 { robotC3 with current_action := Action.Intaking, action_cooldown := 0 } } ∧
    ¬ ({ robotC3 with current_action := Action.Intaking, action_cooldown := 0 } : Robot).is_busy ∧
    ({ robotC3 with current_action := Action.Intaking, action_cooldown := 0 } : Robot).current_action ≠ Action.Idle ∧
    processBot HubStatus.Active HubStatus.Active 1 midW { robotC3 with current_action := Action.Intaking, action_cooldown := 0 } = (midW, { robotC3 with current_action := Action.Intaking, action_cooldown := 0 }) := by
  have hi : ¬ robotC3.is_busy := by norm_num [robotC3, mkRobot, Robot.is_busy]
  obtain ⟨a, _, c, dd, ee⟩ :=
    intake_nonpositive_duration_stuck engineC3 0 0 robotC3 0 rfl rfl hi le_rfl
  exact ⟨hi, le_rfl, a, c, dd, ee HubStatus.Active HubStatus.Active 1 midW⟩

end Sim
